import Mathlib

/-!
Shallow embedding of the self-update state machine of `emojidb-alfred`
(`src/alfred/client.py`, class `AlfredWorkflowClient`).  The persisted
record is the workflow's `info.plist` dictionary; the update check
`AlfredWorkflowClient.update` (lines 86-125) decides whether to poll the
GitHub release feed, updates the record, and adds Alfred result items.
`AlfredWorkflowClient.response` (lines 147-150) serializes the collected
items and exits the process.
-/

/-- Seven days in seconds: the literal `7 * 24 * 60 * 60` poll interval at
`src/alfred/client.py` line 91. -/
def POLL_INTERVAL : Nat := 7 * 24 * 60 * 60

/-- The persisted `info.plist` record as `AlfredWorkflowClient.update` reads
it.  `version` is read by direct key access (line 90), `lastcheckedtime` and
`needupdate` with `.get` defaults (lines 91 and 119), `latestversion` and
`downloadurl` by direct key access on the cached-pending branch (lines 121
and 124), so the latter four are optional. -/
structure Plist where
  version : String
  lastcheckedtime : Option Nat
  needupdate : Option Bool
  latestversion : Option String
  downloadurl : Option String
deriving Repr, DecidableEq

/-- One element of a release's `assets` array (line 104). -/
structure Asset where
  browser_download_url : String
deriving Repr, DecidableEq

/-- One element of the decoded release list (lines 101-104). -/
structure Release where
  tag_name : String
  assets : List Asset
deriving Repr, DecidableEq

/-- Outcome of `session.get(...)` at line 93: either the transport layer
raises an `aiohttp` exception, or an HTTP response arrives with a status
code and a decoded JSON body (the release list). -/
inductive FetchOutcome where
  | transportError
  | response (status : Nat) (releases : List Release)
deriving Repr, DecidableEq

/-- An Alfred result item as built by `AlfredWorkflowClient.add_result`
(lines 127-141). -/
structure AlfredResult where
  title : String
  subtitle : String
  icon : Option String
  arg : String
deriving Repr, DecidableEq

/-- `AlfredWorkflowClient.add_result` (lines 127-141): the icon is `None`
unless a non-empty `icon_path` is given (the `http_downloader` argument is
never passed by `update`, so it is omitted). -/
def mkResult (title subtitle icon_path arg : String) : AlfredResult :=
  { title := title, subtitle := subtitle,
    icon := if icon_path = "" then none else some icon_path, arg := arg }

/-- The "Update failed" item added at lines 95-99. -/
def updateFailedResult : AlfredResult :=
  mkResult "Update failed" "Could not get latest release" "alfred/icons/failed.png" ""

/-- The "Update available" item added at lines 107-112 and 120-125. -/
def updateAvailableResult (current latest url : String) : AlfredResult :=
  mkResult ("Update available " ++ current ++ " → " ++ latest)
    "Hold ⇧ and enter to update" "alfred/icons/updated.png" url

/-- Split a character list on the dot separator; an empty input yields one
empty group, mirroring how a version string decomposes at its dots. -/
def splitDots : List Char → List (List Char)
  | [] => [[]]
  | c :: rest =>
    let r := splitDots rest
    if c = '.' then [] :: r
    else match r with
      | g :: gs => (c :: g) :: gs
      | [] => [[c]]

/-- Read a nonempty all-digit group as a decimal numeral; any other group
is not a valid release segment. -/
def digitsToNat : List Char → Nat → Option Nat
  | [], acc => some acc
  | c :: cs, acc =>
    if c.isDigit then digitsToNat cs (10 * acc + (c.toNat - 48)) else none

/-- Parse each dot-separated group as a decimal numeral, failing if any
group is empty or non-numeric. -/
def parseGroups : List (List Char) → Option (List Nat)
  | [] => some []
  | g :: gs =>
    match (if g.isEmpty then none else digitsToNat g 0), parseGroups gs with
    | some n, some ns => some (n :: ns)
    | _, _ => none

/-- Models `packaging.version.parse` (lines 16 and 106) on plain release
versions: an optional leading `v`, then dot-separated decimal numerals.
Anything else raises `InvalidVersion`, modelled as `none`. -/
def parseVersion (s : String) : Option (List Nat) :=
  let cs := match s.toList with
    | 'v' :: rest => rest
    | 'V' :: rest => rest
    | other => other
  parseGroups (splitDots cs)

/-- Strict comparison of parsed release segments, as `packaging.version`
compares them: componentwise numeric, missing components count as zero. -/
def versionLt : List Nat → List Nat → Bool
  | [], ys => ys.any (fun y => 0 < y)
  | _ :: _, [] => false
  | x :: xs, y :: ys => if x < y then true else if y < x then false else versionLt xs ys

/-- Everything observable about one call of `AlfredWorkflowClient.update`
(lines 86-125): whether the HTTP GET was issued, whether `info.plist` was
written back (lines 117-118), the result items added in order, the final
in-memory record, and the uncaught Python exception if one escapes. -/
structure UpdateTrace where
  networkPolled : Bool
  wrote : Bool
  results : List AlfredResult
  plist : Plist
  raised : Option String
deriving Repr, DecidableEq

/-- `AlfredWorkflowClient.update` (lines 86-125), given the loaded record,
the current time and the fetch outcome.  Branches mirror the source: the
poll guard at line 91, the status check at line 94, `releases[0]` and
`assets[0]` subscripts at lines 102-104, the version comparison at
line 106, the unconditional write-back at lines 117-118 reached on both
the non-200 and the success path, and the cached-pending branch at
lines 119-125 with its direct key accesses. -/
def update (p : Plist) (now : Nat) (fetch : FetchOutcome) : UpdateTrace :=
  if now - p.lastcheckedtime.getD 0 > POLL_INTERVAL then
    match fetch with
    | .transportError => ⟨true, false, [], p, some "ClientError"⟩
    | .response status releases =>
      if status ≠ 200 then
        ⟨true, true, [updateFailedResult], p, none⟩
      else
        match releases with
        | [] => ⟨true, false, [], p, some "IndexError"⟩
        | rel :: _ =>
          match rel.assets with
          | [] => ⟨true, false, [], p, some "IndexError"⟩
          | asset :: _ =>
            match parseVersion rel.tag_name, parseVersion p.version with
            | some lv, some cv =>
              if versionLt cv lv then
                ⟨true, true,
                 [updateAvailableResult p.version rel.tag_name asset.browser_download_url],
                 { p with needupdate := some true,
                          latestversion := some rel.tag_name,
                          downloadurl := some asset.browser_download_url,
                          lastcheckedtime := some now }, none⟩
              else
                ⟨true, true, [],
                 { p with latestversion := some rel.tag_name,
                          downloadurl := some asset.browser_download_url,
                          lastcheckedtime := some now }, none⟩
            | _, _ => ⟨true, false, [], p, some "InvalidVersion"⟩
  else if p.needupdate.getD false then
    match p.latestversion, p.downloadurl with
    | some lv, some du =>
      ⟨false, false, [updateAvailableResult p.version lv du], p, none⟩
    | _, _ => ⟨false, false, [], p, some "KeyError"⟩
  else
    ⟨false, false, [], p, none⟩

/-- Lines 88-90: `plistlib.load` of `info.plist` runs before any of
`update`'s logic; an unreadable or absent file raises there and the
exception propagates unhandled. -/
def updateFromLoad (loaded : Except String Plist) (now : Nat)
    (fetch : FetchOutcome) : Except String UpdateTrace :=
  match loaded with
  | .error e => .error e
  | .ok p => .ok (update p now fetch)

/-- The record invariant of the cached-pending branch: whenever the stored
`needupdate` flag reads true, `latestversion` and `downloadurl` are both
present. -/
def wellFormed (p : Plist) : Prop :=
  p.needupdate.getD false = true → p.latestversion.isSome ∧ p.downloadurl.isSome

instance (p : Plist) : Decidable (wellFormed p) := by
  unfold wellFormed; infer_instance

/-- Iterated update checks: fold `update` over a list of invocations, each
with its own current time and fetch outcome, threading the record. -/
def runChecks (p : Plist) (steps : List (Nat × FetchOutcome)) : Plist :=
  steps.foldl (fun q s => (update q s.1 s.2).plist) p

/-- A JSON value, for the shape of the payload built at line 149. -/
inductive Json where
  | str (s : String)
  | null
  | arr (elems : List Json)
  | obj (fields : List (String × Json))

/-- Modelled from the spec: `AlfredResult.to_dict` lives in
`alfred/models.py`, which is not under `src/`; the spec gives each emitted
item the shape `title, subtitle, icon, arg`, with `icon` optional. -/
def AlfredResult.to_dict (r : AlfredResult) : Json :=
  Json.obj [("title", Json.str r.title), ("subtitle", Json.str r.subtitle),
            ("icon", match r.icon with | some pth => Json.str pth | none => Json.null),
            ("arg", Json.str r.arg)]

/-- `AlfredWorkflowClient.response` (lines 147-150): serialize the object
with single key `items` holding the collected results in producer order,
then `exit(0)`.  Returned as the payload paired with the exit code. -/
def response (results : List AlfredResult) : Json × Nat :=
  (Json.obj [("items", Json.arr (results.map AlfredResult.to_dict))], 0)

example : parseVersion "1.1.0" = some [1, 1, 0] := by decide
example : parseVersion "v2.0" = some [2, 0] := by decide
example : parseVersion "1..0" = none := by decide
example : versionLt [1, 0, 0] [1, 1, 0] = true := by decide
example : versionLt [1, 1] [1, 1, 0] = false := by decide
example : versionLt [1, 1] [1, 1, 1] = true := by decide

-- Scenario A: stale record, newer release fetched.
example :
    update ⟨"1.0.0", some 0, some false, none, none⟩ 691200
        (.response 200 [⟨"1.1.0", [⟨"url1"⟩]⟩]) =
      ⟨true, true, [updateAvailableResult "1.0.0" "1.1.0" "url1"],
       ⟨"1.0.0", some 691200, some true, some "1.1.0", some "url1"⟩, none⟩ := by decide

-- Scenario B: fresh record with pending update, rebuilt from stored fields.
example :
    update ⟨"1.0.0", some 100, some true, some "1.1.0", some "url1"⟩ 200 .transportError =
      ⟨false, false, [updateAvailableResult "1.0.0" "1.1.0" "url1"],
       ⟨"1.0.0", some 100, some true, some "1.1.0", some "url1"⟩, none⟩ := by decide

-- Scenario C: HTTP 500 on a stale record: failed item, record written unchanged.
example :
    update ⟨"1.0.0", some 0, none, none, none⟩ 700000 (.response 500 []) =
      ⟨true, true, [updateFailedResult], ⟨"1.0.0", some 0, none, none, none⟩, none⟩ := by
  decide

-- Transport error on a stale record: exception propagates, nothing emitted.
example :
    update ⟨"1.0.0", some 0, none, none, none⟩ 700000 .transportError =
      ⟨true, false, [], ⟨"1.0.0", some 0, none, none, none⟩, some "ClientError"⟩ := by decide

-- Malformed payload (no releases): IndexError propagates.
example :
    (update ⟨"1.0.0", some 0, none, none, none⟩ 700000 (.response 200 [])).raised =
      some "IndexError" := by decide

/-- Shared shape of the within-interval (skip) branch: on a well-formed
record the check touches neither the network nor the store, leaves the
record unchanged, raises nothing, and emits the cached pending item iff
`needupdate` reads true. -/
theorem update_skip_eq (p : Plist) (now : Nat) (fetch : FetchOutcome)
    (h1 : now - p.lastcheckedtime.getD 0 ≤ POLL_INTERVAL) (h2 : wellFormed p) :
    update p now fetch =
      ⟨false, false,
       if p.needupdate.getD false then
         [updateAvailableResult p.version (p.latestversion.getD "") (p.downloadurl.getD "")]
       else [], p, none⟩ := by
  have hnot : ¬ (now - p.lastcheckedtime.getD 0 > POLL_INTERVAL) := not_lt.mpr h1
  unfold update
  rw [if_neg hnot]
  by_cases hn : p.needupdate.getD false
  · obtain ⟨hl, hd⟩ := h2 hn
    obtain ⟨lv, hlv⟩ := Option.isSome_iff_exists.mp hl
    obtain ⟨du, hdu⟩ := Option.isSome_iff_exists.mp hd
    simp [hn, hlv, hdu]
  · simp [hn]

/-- In every branch, the final record's `needupdate` is either untouched or
set to `some true`; the flag is never cleared. -/
theorem update_needupdate_cases (p : Plist) (now : Nat) (fetch : FetchOutcome) :
    (update p now fetch).plist.needupdate = p.needupdate ∨
    (update p now fetch).plist.needupdate = some true := by
  unfold update
  repeat' split
  all_goals simp

/-- A single check never clears a stored pending flag. -/
theorem needupdate_sticky_step (p : Plist) (now : Nat) (fetch : FetchOutcome)
    (h : p.needupdate = some true) :
    (update p now fetch).plist.needupdate = some true := by
  rcases update_needupdate_cases p now fetch with hc | hc
  · rw [hc, h]
  · exact hc

/-- C2 counterexample: a record with the pending flag set but no stored
`latestversion` (possible only if the record was produced outside this
program) hits a `KeyError` on the cached-pending branch instead of
emitting the update-available signal the claim promises. -/
theorem c2_counterexample :
    (update ⟨"1.0.0", some 100, some true, none, none⟩ 200 .transportError).raised =
        some "KeyError" ∧
    (update ⟨"1.0.0", some 100, some true, none, none⟩ 200 .transportError).results = [] := by
  decide

/-- C2 (amended): for every persisted record satisfying the invariant that
a true pending flag comes with stored `latestversion` and `downloadurl`
(which holds of every record this program writes), and every current time
within the poll interval, the update check performs zero network calls,
returns the record unchanged, writes nothing, and emits the
update-available item rebuilt from the stored fields exactly when
`needupdate` reads true. -/
theorem c2_within_interval_amended (p : Plist) (now : Nat) (fetch : FetchOutcome)
    (h1 : now - p.lastcheckedtime.getD 0 ≤ POLL_INTERVAL) (h2 : wellFormed p) :
    update p now fetch =
      ⟨false, false,
       if p.needupdate.getD false then
         [updateAvailableResult p.version (p.latestversion.getD "") (p.downloadurl.getD "")]
       else [], p, none⟩ :=
  update_skip_eq p now fetch h1 h2

/-- C2 witness: Scenario B of the spec, evaluated concretely. -/
theorem c2_within_interval_amended_witness :
    update ⟨"1.0.0", some 100, some true, some "1.1.0", some "url1"⟩ 200 .transportError =
      ⟨false, false, [updateAvailableResult "1.0.0" "1.1.0" "url1"],
       ⟨"1.0.0", some 100, some true, some "1.1.0", some "url1"⟩, none⟩ :=
  (c2_within_interval_amended ⟨"1.0.0", some 100, some true, some "1.1.0", some "url1"⟩
    200 .transportError (by decide) (fun _ => ⟨rfl, rfl⟩)).trans (by decide)

/-- C7: on a first run, when no `lastcheckedtime` value is stored, the
check treats the timestamp as epoch 0, so for any current time past the
poll interval the network poll is forced instead of failing. -/
theorem c7_first_run_forces_poll (p : Plist) (now : Nat) (fetch : FetchOutcome)
    (h0 : p.lastcheckedtime = none) (hnow : POLL_INTERVAL < now) :
    (update p now fetch).networkPolled = true := by
  have hc : now - p.lastcheckedtime.getD 0 > POLL_INTERVAL := by
    rw [h0]; simpa using hnow
  unfold update
  rw [if_pos hc]
  repeat' split
  all_goals rfl

/-- C7 witness: a record with no stored timestamp polls at a concrete
current time. -/
theorem c7_first_run_forces_poll_witness :
    (update ⟨"1.0.0", none, none, none, none⟩ 700000 .transportError).networkPolled =
      true :=
  c7_first_run_forces_poll ⟨"1.0.0", none, none, none, none⟩ 700000 .transportError
    rfl (by decide)

/-- C10: the written records keep the invariant that a true pending flag
comes with stored `latestversion` and `downloadurl`; under that invariant
the cached-pending branch within the poll interval never raises on a
missing key. -/
theorem c10_wellformed_invariant (p : Plist) (now : Nat) (fetch : FetchOutcome)
    (h : wellFormed p) :
    wellFormed (update p now fetch).plist ∧
    (now - p.lastcheckedtime.getD 0 ≤ POLL_INTERVAL →
      (update p now fetch).raised = none) := by
  constructor
  · unfold update
    repeat' split
    all_goals simp_all [wellFormed]
  · intro h1
    rw [update_skip_eq p now fetch h1 h]

/-- C10 witness: a pending well-formed record within the interval neither
loses the invariant nor raises. -/
theorem c10_wellformed_invariant_witness :
    wellFormed (update ⟨"1.0.0", some 100, some true, some "1.1.0", some "url1"⟩
        200 .transportError).plist ∧
    (200 - (some 100 : Option Nat).getD 0 ≤ POLL_INTERVAL →
      (update ⟨"1.0.0", some 100, some true, some "1.1.0", some "url1"⟩
        200 .transportError).raised = none) :=
  c10_wellformed_invariant ⟨"1.0.0", some 100, some true, some "1.1.0", some "url1"⟩
    200 .transportError (fun _ => ⟨rfl, rfl⟩)

/-- C1 counterexample: a malformed release payload (an empty release list
with HTTP 200) makes the `releases[0]` subscript raise an uncaught
`IndexError` instead of being converted into a check-failed result item,
so not every error class is caught at the update boundary. -/
theorem c1_counterexample :
    (update ⟨"1.0.0", some 0, none, none, none⟩ 700000 (.response 200 [])).raised =
        some "IndexError" ∧
    (update ⟨"1.0.0", some 0, none, none, none⟩ 700000 (.response 200 [])).results =
        [] := by
  decide

/-- C1 (amended): only a non-success HTTP status is caught and converted
into the single user-visible failed item; a transport error and a
malformed release payload raise uncaught exceptions past the update
boundary, and a store read error raises before the check even starts. -/
theorem c1_error_handling_amended :
    (∀ (p : Plist) (now status : Nat) (rels : List Release),
        now - p.lastcheckedtime.getD 0 > POLL_INTERVAL → status ≠ 200 →
        (update p now (.response status rels)).results = [updateFailedResult] ∧
        (update p now (.response status rels)).raised = none) ∧
    (∀ (p : Plist) (now : Nat),
        now - p.lastcheckedtime.getD 0 > POLL_INTERVAL →
        (update p now .transportError).raised.isSome = true) ∧
    (∀ (p : Plist) (now : Nat),
        now - p.lastcheckedtime.getD 0 > POLL_INTERVAL →
        (update p now (.response 200 [])).raised.isSome = true) ∧
    (∀ (e : String) (now : Nat) (fetch : FetchOutcome),
        updateFromLoad (.error e) now fetch = .error e) := by
  refine ⟨?_, ?_, ?_, fun e now fetch => rfl⟩
  · intro p now status rels h1 h2
    unfold update
    rw [if_pos h1]
    simp [h2]
  · intro p now h1
    unfold update
    rw [if_pos h1]
    rfl
  · intro p now h1
    unfold update
    rw [if_pos h1]
    rfl

/-- C1 amended witness: the three handled/unhandled cases at concrete
inputs. -/
theorem c1_error_handling_amended_witness :
    ((update ⟨"1.0.0", some 0, none, none, none⟩ 700000 (.response 500 [])).results =
        [updateFailedResult] ∧
      (update ⟨"1.0.0", some 0, none, none, none⟩ 700000 (.response 500 [])).raised =
        none) ∧
    (update ⟨"1.0.0", some 0, none, none, none⟩ 700000 .transportError).raised.isSome =
        true ∧
    updateFromLoad (.error "FileNotFoundError") 700000 .transportError =
        .error "FileNotFoundError" :=
  ⟨c1_error_handling_amended.1 ⟨"1.0.0", some 0, none, none, none⟩ 700000 500 []
      (by decide) (by decide),
   c1_error_handling_amended.2.1 ⟨"1.0.0", some 0, none, none, none⟩ 700000 (by decide),
   c1_error_handling_amended.2.2.2 "FileNotFoundError" 700000 .transportError⟩

/-- C3: on an expired interval, when the fetch succeeds and the newest
release's tag parses strictly greater than the current version, the check
sets the pending flag and emits the update-available item whose argument
is the download location of the first asset of release index 0; the
updated record is written back. -/
theorem c3_newer_release_pending (p : Plist) (now : Nat) (rel : Release)
    (rest : List Release) (asset : Asset) (more : List Asset) (lv cv : List Nat)
    (hpoll : now - p.lastcheckedtime.getD 0 > POLL_INTERVAL)
    (hassets : rel.assets = asset :: more)
    (hlv : parseVersion rel.tag_name = some lv)
    (hcv : parseVersion p.version = some cv)
    (hlt : versionLt cv lv = true) :
    update p now (.response 200 (rel :: rest)) =
      ⟨true, true,
       [updateAvailableResult p.version rel.tag_name asset.browser_download_url],
       { p with needupdate := some true, latestversion := some rel.tag_name,
                downloadurl := some asset.browser_download_url,
                lastcheckedtime := some now }, none⟩ := by
  unfold update
  rw [if_pos hpoll]
  simp [hassets, hlv, hcv, hlt]

/-- C3 witness: Scenario A of the spec, evaluated concretely. -/
theorem c3_newer_release_pending_witness :
    update ⟨"1.0.0", some 0, some false, none, none⟩ 691200
        (.response 200 [⟨"1.1.0", [⟨"url1"⟩]⟩]) =
      ⟨true, true, [updateAvailableResult "1.0.0" "1.1.0" "url1"],
       ⟨"1.0.0", some 691200, some true, some "1.1.0", some "url1"⟩, none⟩ :=
  (c3_newer_release_pending ⟨"1.0.0", some 0, some false, none, none⟩ 691200
    ⟨"1.1.0", [⟨"url1"⟩]⟩ [] ⟨"url1"⟩ [] [1, 1, 0] [1, 0, 0]
    (by decide) rfl (by decide) (by decide) (by decide)).trans (by decide)

/-- C4 counterexample: a transport error during the fetch does not produce
the promised check-failed item; it propagates as an uncaught exception. -/
theorem c4_counterexample :
    (update ⟨"1.0.0", some 0, none, none, none⟩ 700000 .transportError).results = [] ∧
    (update ⟨"1.0.0", some 0, none, none, none⟩ 700000 .transportError).raised =
        some "ClientError" := by
  decide

/-- C4 (amended): on an expired interval, a fetch returning a non-success
HTTP status yields the single check-failed item and writes the record back
with every field unmutated, including `lastcheckedtime`, so the next
invocation retries immediately; a transport error instead raises an
uncaught exception, also leaving every field unmutated and unwritten. -/
theorem c4_fetch_failure_amended :
    (∀ (p : Plist) (now status : Nat) (rels : List Release),
        now - p.lastcheckedtime.getD 0 > POLL_INTERVAL → status ≠ 200 →
        update p now (.response status rels) =
          ⟨true, true, [updateFailedResult], p, none⟩) ∧
    (∀ (p : Plist) (now : Nat),
        now - p.lastcheckedtime.getD 0 > POLL_INTERVAL →
        update p now .transportError = ⟨true, false, [], p, some "ClientError"⟩) := by
  constructor
  · intro p now status rels h1 h2
    unfold update
    rw [if_pos h1]
    simp [h2]
  · intro p now h1
    unfold update
    rw [if_pos h1]

/-- C4 amended witness: Scenario C of the spec and the transport-error
case, evaluated concretely. -/
theorem c4_fetch_failure_amended_witness :
    update ⟨"1.0.0", some 10, some true, some "1.1.0", some "url1"⟩ 700000
        (.response 500 []) =
      ⟨true, true, [updateFailedResult],
       ⟨"1.0.0", some 10, some true, some "1.1.0", some "url1"⟩, none⟩ ∧
    update ⟨"1.0.0", some 10, some true, some "1.1.0", some "url1"⟩ 700000
        .transportError =
      ⟨true, false, [],
       ⟨"1.0.0", some 10, some true, some "1.1.0", some "url1"⟩, some "ClientError"⟩ :=
  ⟨c4_fetch_failure_amended.1 ⟨"1.0.0", some 10, some true, some "1.1.0", some "url1"⟩
      700000 500 [] (by decide) (by decide),
   c4_fetch_failure_amended.2 ⟨"1.0.0", some 10, some true, some "1.1.0", some "url1"⟩
      700000 (by decide)⟩

/-- C5: on an expired interval, every successful fetch, newer release or
not, stores the fetched tag as `latestversion`, the first asset's location
as `downloadurl`, stamps `lastcheckedtime` with the current time and
writes the record back without raising. -/
theorem c5_success_updates_record (p : Plist) (now : Nat) (rel : Release)
    (rest : List Release) (asset : Asset) (more : List Asset) (lv cv : List Nat)
    (hpoll : now - p.lastcheckedtime.getD 0 > POLL_INTERVAL)
    (hassets : rel.assets = asset :: more)
    (hlv : parseVersion rel.tag_name = some lv)
    (hcv : parseVersion p.version = some cv) :
    (update p now (.response 200 (rel :: rest))).plist.latestversion =
        some rel.tag_name ∧
    (update p now (.response 200 (rel :: rest))).plist.downloadurl =
        some asset.browser_download_url ∧
    (update p now (.response 200 (rel :: rest))).plist.lastcheckedtime = some now ∧
    (update p now (.response 200 (rel :: rest))).wrote = true ∧
    (update p now (.response 200 (rel :: rest))).raised = none := by
  unfold update
  rw [if_pos hpoll]
  by_cases hlt : versionLt cv lv <;> simp [hassets, hlv, hcv, hlt]

/-- C5 witness: a successful poll that finds no newer release still
refreshes `latestversion`, `downloadurl` and `lastcheckedtime`. -/
theorem c5_success_updates_record_witness :
    (update ⟨"1.1.0", some 0, none, some "1.0.0", some "url0"⟩ 700000
        (.response 200 [⟨"1.1.0", [⟨"url2"⟩]⟩])).plist.latestversion = some "1.1.0" ∧
    (update ⟨"1.1.0", some 0, none, some "1.0.0", some "url0"⟩ 700000
        (.response 200 [⟨"1.1.0", [⟨"url2"⟩]⟩])).plist.downloadurl = some "url2" ∧
    (update ⟨"1.1.0", some 0, none, some "1.0.0", some "url0"⟩ 700000
        (.response 200 [⟨"1.1.0", [⟨"url2"⟩]⟩])).plist.lastcheckedtime = some 700000 ∧
    (update ⟨"1.1.0", some 0, none, some "1.0.0", some "url0"⟩ 700000
        (.response 200 [⟨"1.1.0", [⟨"url2"⟩]⟩])).wrote = true ∧
    (update ⟨"1.1.0", some 0, none, some "1.0.0", some "url0"⟩ 700000
        (.response 200 [⟨"1.1.0", [⟨"url2"⟩]⟩])).raised = none :=
  c5_success_updates_record ⟨"1.1.0", some 0, none, some "1.0.0", some "url0"⟩ 700000
    ⟨"1.1.0", [⟨"url2"⟩]⟩ [] ⟨"url2"⟩ [] [1, 1, 0] [1, 1, 0]
    (by decide) rfl (by decide) (by decide)

/-- C6: a successful poll that finds no strictly newer version leaves the
stored pending flag exactly as it was, and once the flag is `some true` it
stays `some true` across every sequence of subsequent checks. -/
theorem c6_pending_sticky :
    (∀ (p : Plist) (now : Nat) (rel : Release) (rest : List Release)
        (asset : Asset) (more : List Asset) (lv cv : List Nat),
        now - p.lastcheckedtime.getD 0 > POLL_INTERVAL →
        rel.assets = asset :: more →
        parseVersion rel.tag_name = some lv →
        parseVersion p.version = some cv →
        versionLt cv lv = false →
        (update p now (.response 200 (rel :: rest))).plist.needupdate =
          p.needupdate) ∧
    (∀ (p : Plist) (steps : List (Nat × FetchOutcome)),
        p.needupdate = some true → (runChecks p steps).needupdate = some true) := by
  constructor
  · intro p now rel rest asset more lv cv hpoll hassets hlv hcv hlt
    unfold update
    rw [if_pos hpoll]
    simp [hassets, hlv, hcv, hlt]
  · intro p steps h
    induction steps generalizing p with
    | nil => exact h
    | cons s ss ih => exact ih _ (needupdate_sticky_step p s.1 s.2 h)

/-- C6 witness: an already-pending record keeps its flag through a poll
that finds an older release, and through a failed poll followed by a
successful not-newer poll. -/
theorem c6_pending_sticky_witness :
    (update ⟨"2.0.0", some 0, some true, none, none⟩ 700000
        (.response 200 [⟨"1.5.0", [⟨"u"⟩]⟩])).plist.needupdate = some true ∧
    (runChecks ⟨"1.0.0", some 0, some true, some "1.1.0", some "u"⟩
        [(700000, .response 500 []),
         (1400000, .response 200 [⟨"1.0.0", [⟨"u2"⟩]⟩])]).needupdate = some true :=
  ⟨c6_pending_sticky.1 ⟨"2.0.0", some 0, some true, none, none⟩ 700000
      ⟨"1.5.0", [⟨"u"⟩]⟩ [] ⟨"u"⟩ [] [1, 5, 0] [2, 0, 0]
      (by decide) rfl (by decide) (by decide) (by decide),
   c6_pending_sticky.2 ⟨"1.0.0", some 0, some true, some "1.1.0", some "u"⟩
      [(700000, .response 500 []), (1400000, .response 200 [⟨"1.0.0", [⟨"u2"⟩]⟩])] rfl⟩

/-- C8: whenever a check writes the record back, the stored
`lastcheckedtime` is either preserved verbatim or replaced by the current
time, which is never smaller than the stored value; so the field is
monotonically non-decreasing across writes. -/
theorem c8_lastchecked_monotone (p : Plist) (now : Nat) (fetch : FetchOutcome)
    (hw : (update p now fetch).wrote = true) :
    (update p now fetch).plist.lastcheckedtime = p.lastcheckedtime ∨
    ((update p now fetch).plist.lastcheckedtime = some now ∧
      p.lastcheckedtime.getD 0 ≤ now) := by
  by_cases hp : now - p.lastcheckedtime.getD 0 > POLL_INTERVAL
  · have hle : p.lastcheckedtime.getD 0 ≤ now := by omega
    unfold update
    rw [if_pos hp]
    repeat' split
    all_goals simp [hle]
  · left
    unfold update
    rw [if_neg hp]
    repeat' split
    all_goals rfl

/-- C8 witness: a successful poll stamps the current time, which dominates
the stored one. -/
theorem c8_lastchecked_monotone_witness :
    (update ⟨"1.0.0", some 3, none, none, none⟩ 700000
        (.response 200 [⟨"1.1.0", [⟨"u"⟩]⟩])).plist.lastcheckedtime =
      (Plist.mk "1.0.0" (some 3) none none none).lastcheckedtime ∨
    ((update ⟨"1.0.0", some 3, none, none, none⟩ 700000
        (.response 200 [⟨"1.1.0", [⟨"u"⟩]⟩])).plist.lastcheckedtime = some 700000 ∧
      (Plist.mk "1.0.0" (some 3) none none none).lastcheckedtime.getD 0 ≤ 700000) :=
  c8_lastchecked_monotone ⟨"1.0.0", some 3, none, none, none⟩ 700000
    (.response 200 [⟨"1.1.0", [⟨"u"⟩]⟩]) (by decide)

/-- C9: the terminal emission serializes exactly the object whose single
key `items` holds the collected result items in producer order, each
rendered with its `title`, `subtitle`, `icon` and `arg` fields, and exits
with code 0 whatever the items are, failure items included. -/
theorem c9_response_items_exit0 (rs : List AlfredResult) :
    (response rs).2 = 0 ∧
    (response rs).1 =
      Json.obj [("items", Json.arr (rs.map AlfredResult.to_dict))] ∧
    rs.map AlfredResult.to_dict = rs.map fun r =>
      Json.obj [("title", Json.str r.title), ("subtitle", Json.str r.subtitle),
                ("icon", (match r.icon with
                          | some pth => Json.str pth
                          | none => Json.null)),
                ("arg", Json.str r.arg)] :=
  ⟨rfl, rfl, rfl⟩
